import Mathlib

/-!
Verification of the client-side theme persistence module (`lib/theme`) and the
vector-limit formatting helper of the frontend.

The browser environment is embedded shallowly: a `World` carries the
availability flags (`typeof window`/`typeof document`), the OS dark-scheme
media signal, the key-value local storage (as a function from keys to optional
string values), a flag saying whether a storage write throws (quota/security
exception), and the class lists of the two root presentation targets
(`document.documentElement` and `document.body`), each modelled as its
characteristic function on class names.  Operations that mutate the page are
state-passing functions `World → World`; a possible JavaScript exception is an
`Except Unit` (for the raw `setItem` expression) or an explicit `Bool` flag
("the call threw") on `setTheme`.
-/

namespace ThemeLib

/-- `export type ThemeMode = 'light' | 'dark'` -/
inductive ThemeMode
  | light
  | dark
deriving DecidableEq, Repr, Fintype

/-- The string encoding of a `ThemeMode`, as stored in local storage. -/
def encodeTheme : ThemeMode → String
  | ThemeMode.light => "light"
  | ThemeMode.dark => "dark"

/-- A DOM element's class list, as the characteristic function of the set of
class names it carries. -/
abbrev ClassList : Type := String → Bool

/-- `classList.toggle(cls, force)` with an explicit boolean `force`:
membership of `cls` becomes `force`, all other classes are untouched. -/
def toggleClass (cl : ClassList) (cls : String) (force : Bool) : ClassList :=
  fun c => if c = cls then force else cl c

/-- The two root presentation targets: `document.documentElement` and
`document.body`, each reduced to its class list. -/
structure Dom where
  documentElement : ClassList
  body : ClassList

/-- The browser environment and mutable page state visible to `lib/theme`. -/
structure World where
  /-- `typeof window !== 'undefined'` -/
  windowDefined : Bool
  /-- `typeof document !== 'undefined'` -/
  documentDefined : Bool
  /-- `window.matchMedia('(prefers-color-scheme: dark)').matches` -/
  prefersDark : Bool
  /-- whether a `localStorage.setItem` call throws (quota / security / disabled
  storage exception) -/
  storageWriteThrows : Bool
  /-- the local storage contents, keyed by string -/
  storage : String → Option String
  /-- the page's root targets -/
  dom : Dom

/-- `const THEME_STORAGE_KEY = 'vectorlab-theme'` -/
def THEME_STORAGE_KEY : String := "vectorlab-theme"

/-- `getStoredTheme`: returns the stored value only when it is exactly
`"light"` or `"dark"`; `null` (here `none`) otherwise, including when
`window` is undefined. -/
def getStoredTheme (w : World) : Option ThemeMode :=
  if w.windowDefined = false then none
  else
    let value := w.storage THEME_STORAGE_KEY
    if value = some "light" then some ThemeMode.light
    else if value = some "dark" then some ThemeMode.dark
    else none

/-- `detectPreferredTheme`: `'dark'` when a window exists and the dark
color-scheme media query matches, else `'light'`. -/
def detectPreferredTheme (w : World) : ThemeMode :=
  if w.windowDefined && w.prefersDark then ThemeMode.dark else ThemeMode.light

/-- `applyTheme`: no-op when `document` is undefined; otherwise toggles the
`"dark"` class on both root targets, forced to `theme === 'dark'`. -/
def applyTheme (theme : ThemeMode) (w : World) : World :=
  if w.documentDefined = false then w
  else
    { w with
      dom :=
        { documentElement :=
            toggleClass w.dom.documentElement "dark" (decide (theme = ThemeMode.dark))
          body := toggleClass w.dom.body "dark" (decide (theme = ThemeMode.dark)) } }

/-- The expression `window.localStorage.setItem(key, value)`: throws
(`Except.error`) when `window` is undefined (a `ReferenceError`) or when the
storage write itself throws; otherwise stores `value` under `key`,
overwriting any previous value. -/
def windowLocalStorageSetItem (w : World) (key value : String) : Except Unit World :=
  if w.windowDefined = false then Except.error ()
  else if w.storageWriteThrows then Except.error ()
  else Except.ok { w with storage := fun k => if k = key then some value else w.storage k }

/-- `try { window.localStorage.setItem(key, value) } catch { /- ignore -/ }`:
the write failure is swallowed and the state is left as it was. -/
def trySetItemIgnore (w : World) (key value : String) : World :=
  match windowLocalStorageSetItem w key value with
  | Except.ok w2 => w2
  | Except.error _ => w

/-- `setTheme`: no-op when `window` is undefined; otherwise applies the theme
and then writes the encoding to storage.  The write is NOT wrapped in
try/catch, so the `Bool` component records whether the call threw an
exception observable by the caller (state changes made before the throw
persist). -/
def setTheme (theme : ThemeMode) (w : World) : World × Bool :=
  if w.windowDefined = false then (w, false)
  else
    let w1 := applyTheme theme w
    match windowLocalStorageSetItem w1 THEME_STORAGE_KEY (encodeTheme theme) with
    | Except.ok w2 => (w2, false)
    | Except.error _ => (w1, true)

/-- `initTheme`: resolve the stored preference, falling back to the system
preference; apply it; if nothing was stored, attempt to persist the resolved
mode, ignoring storage write failures; return the resolved mode. -/
def initTheme (w : World) : ThemeMode × World :=
  let stored := getStoredTheme w
  let theme := stored.getD (detectPreferredTheme w)
  let w1 := applyTheme theme w
  let w2 :=
    if stored = none then trySetItemIgnore w1 THEME_STORAGE_KEY (encodeTheme theme)
    else w1
  (theme, w2)

/-- A call into the theme component, for reasoning about call sequences. -/
inductive ThemeOp
  | applyOp (m : ThemeMode)
  | setOp (m : ThemeMode)
  | initOp

/-- Run one call, keeping the resulting page state (for `setTheme` the state
reached even when the call threw). -/
def runOp (w : World) : ThemeOp → World
  | ThemeOp.applyOp m => applyTheme m w
  | ThemeOp.setOp m => (setTheme m w).1
  | ThemeOp.initOp => (initTheme w).2

/-- Run a sequence of calls left to right. -/
def runOps (w : World) : List ThemeOp → World
  | [] => w
  | op :: rest => runOps (runOp w op) rest

/-- The two root targets agree on membership of the `"dark"` marker. -/
def domAgrees (w : World) : Prop :=
  w.dom.documentElement "dark" = w.dom.body "dark"

/-- `formatVectorLimit(current, limit)` from the billing page, parameterised
by `formatNumber` (in the source `new Intl.NumberFormat().format`, whose
output is locale-dependent and therefore abstracted).  `limit` is
`number | null`; the guard is `!limit || limit < 0`, where `!limit` is true
for `null` and for `0`. -/
def formatVectorLimit (formatNumber : Int → String) (current : Int)
    (limit : Option Int) : String :=
  match limit with
  | none => formatNumber current ++ " / Unlimited"
  | some l =>
    if l == 0 || l < 0 then formatNumber current ++ " / Unlimited"
    else formatNumber current ++ " / " ++ formatNumber l

/-! ### Helper lemmas -/

@[simp]
theorem toggleClass_self (cl : ClassList) (cls : String) (force : Bool) :
    toggleClass cl cls force cls = force := by
  simp [toggleClass]

theorem toggleClass_ne (cl : ClassList) (cls : String) (force : Bool) (c : String)
    (h : c ≠ cls) : toggleClass cl cls force c = cl c := by
  simp [toggleClass, h]

@[simp]
theorem toggleClass_idem (cl : ClassList) (cls : String) (force : Bool) :
    toggleClass (toggleClass cl cls force) cls force = toggleClass cl cls force := by
  funext c
  by_cases h : c = cls <;> simp [toggleClass, h]

@[simp]
theorem applyTheme_storage (m : ThemeMode) (w : World) :
    (applyTheme m w).storage = w.storage := by
  unfold applyTheme
  split <;> rfl

@[simp]
theorem applyTheme_windowDefined (m : ThemeMode) (w : World) :
    (applyTheme m w).windowDefined = w.windowDefined := by
  unfold applyTheme
  split <;> rfl

@[simp]
theorem applyTheme_documentDefined (m : ThemeMode) (w : World) :
    (applyTheme m w).documentDefined = w.documentDefined := by
  unfold applyTheme
  split <;> rfl

@[simp]
theorem applyTheme_prefersDark (m : ThemeMode) (w : World) :
    (applyTheme m w).prefersDark = w.prefersDark := by
  unfold applyTheme
  split <;> rfl

@[simp]
theorem applyTheme_storageWriteThrows (m : ThemeMode) (w : World) :
    (applyTheme m w).storageWriteThrows = w.storageWriteThrows := by
  unfold applyTheme
  split <;> rfl

theorem applyTheme_of_not_document (m : ThemeMode) (w : World)
    (h : w.documentDefined = false) : applyTheme m w = w := by
  simp [applyTheme, h]

theorem applyTheme_dom_of_document (m : ThemeMode) (w : World)
    (h : w.documentDefined = true) :
    (applyTheme m w).dom =
      { documentElement := toggleClass w.dom.documentElement "dark" (decide (m = ThemeMode.dark))
        body := toggleClass w.dom.body "dark" (decide (m = ThemeMode.dark)) } := by
  simp [applyTheme, h]

@[simp]
theorem trySetItemIgnore_dom (w : World) (key value : String) :
    (trySetItemIgnore w key value).dom = w.dom := by
  unfold trySetItemIgnore windowLocalStorageSetItem
  split_ifs <;> rfl

theorem trySetItemIgnore_storage_ok (w : World) (key value : String)
    (hw : w.windowDefined = true) (ht : w.storageWriteThrows = false) :
    (trySetItemIgnore w key value).storage =
      fun k => if k = key then some value else w.storage k := by
  simp [trySetItemIgnore, windowLocalStorageSetItem, hw, ht]

theorem trySetItemIgnore_storage_fail (w : World) (key value : String)
    (h : w.windowDefined = false ∨ w.storageWriteThrows = true) :
    (trySetItemIgnore w key value).storage = w.storage := by
  unfold trySetItemIgnore windowLocalStorageSetItem
  rcases h with h | h <;> simp [h]

theorem initTheme_fst (w : World) :
    (initTheme w).1 = (getStoredTheme w).getD (detectPreferredTheme w) := rfl

theorem initTheme_dom (w : World) :
    (initTheme w).2.dom =
      (applyTheme ((getStoredTheme w).getD (detectPreferredTheme w)) w).dom := by
  unfold initTheme
  cases h : getStoredTheme w <;> simp [h]

@[simp]
theorem getStoredTheme_throws (w : World) (b : Bool) :
    getStoredTheme { w with storageWriteThrows := b } = getStoredTheme w := rfl

@[simp]
theorem detectPreferredTheme_throws (w : World) (b : Bool) :
    detectPreferredTheme { w with storageWriteThrows := b } = detectPreferredTheme w := rfl

@[simp]
theorem getStoredTheme_prefers (w : World) (b : Bool) :
    getStoredTheme { w with prefersDark := b } = getStoredTheme w := rfl

/-! ### Claim theorems -/

/-- C7: `applyTheme` is idempotent — for every mode `m` and every initial
display state, applying `m` twice yields the same final state as applying it
once — and when a document exists, `applyTheme dark` followed by
`applyTheme light` leaves both root targets without the `"dark"` marker. -/
theorem applyTheme_idem_and_roundtrip (m : ThemeMode) (w : World) :
    applyTheme m (applyTheme m w) = applyTheme m w ∧
    (w.documentDefined = true →
      (applyTheme ThemeMode.light (applyTheme ThemeMode.dark w)).dom.documentElement "dark"
          = false ∧
      (applyTheme ThemeMode.light (applyTheme ThemeMode.dark w)).dom.body "dark" = false) := by
  constructor
  · by_cases hd : w.documentDefined = false
    · rw [applyTheme_of_not_document m w hd, applyTheme_of_not_document m w hd]
    · simp only [Bool.not_eq_false] at hd
      simp [applyTheme, hd]
  · intro hd
    simp [applyTheme, hd]

/-- C7 witness: concrete instance with the document present and a dark-marked
initial state. -/
theorem applyTheme_idem_and_roundtrip_witness :
    (applyTheme ThemeMode.light
        (applyTheme ThemeMode.dark
          ⟨true, true, false, false, fun _ => none,
            ⟨fun _ => true, fun _ => false⟩⟩)).dom.documentElement "dark" = false :=
  ((applyTheme_idem_and_roundtrip ThemeMode.dark
      ⟨true, true, false, false, fun _ => none,
        ⟨fun _ => true, fun _ => false⟩⟩).2 rfl).1

/-- C8: `applyTheme` never touches persistence or the environment flags; when
no document exists it is a no-op; when a document exists, its only effect is
to set the `"dark"` marker on both root targets iff the mode is `dark`,
leaving every other class membership unchanged. -/
theorem applyTheme_frame (m : ThemeMode) (w : World) :
    (applyTheme m w).storage = w.storage ∧
    (applyTheme m w).windowDefined = w.windowDefined ∧
    (applyTheme m w).prefersDark = w.prefersDark ∧
    (applyTheme m w).storageWriteThrows = w.storageWriteThrows ∧
    (w.documentDefined = false → applyTheme m w = w) ∧
    (w.documentDefined = true →
      (applyTheme m w).dom.documentElement "dark" = decide (m = ThemeMode.dark) ∧
      (applyTheme m w).dom.body "dark" = decide (m = ThemeMode.dark) ∧
      ∀ c, c ≠ "dark" →
        (applyTheme m w).dom.documentElement c = w.dom.documentElement c ∧
        (applyTheme m w).dom.body c = w.dom.body c) := by
  refine ⟨applyTheme_storage m w, applyTheme_windowDefined m w,
    applyTheme_prefersDark m w, applyTheme_storageWriteThrows m w,
    applyTheme_of_not_document m w, ?_⟩
  intro hd
  rw [applyTheme_dom_of_document m w hd]
  refine ⟨by simp, by simp, ?_⟩
  intro c hc
  constructor <;> simp [toggleClass, hc]

/-- C8 witness: concrete instance with a document, mode `dark`, a nonempty
store and another class on the body. -/
theorem applyTheme_frame_witness :
    (applyTheme ThemeMode.dark
        ⟨true, true, false, false,
          fun k => if k = THEME_STORAGE_KEY then some "light" else none,
          ⟨fun _ => false, fun c => c = "container"⟩⟩).storage THEME_STORAGE_KEY
        = some "light" ∧
    (applyTheme ThemeMode.dark
        ⟨true, true, false, false,
          fun k => if k = THEME_STORAGE_KEY then some "light" else none,
          ⟨fun _ => false, fun c => c = "container"⟩⟩).dom.body "dark" = true ∧
    (applyTheme ThemeMode.dark
        ⟨true, true, false, false,
          fun k => if k = THEME_STORAGE_KEY then some "light" else none,
          ⟨fun _ => false, fun c => c = "container"⟩⟩).dom.body "container" = true := by
  have h := applyTheme_frame ThemeMode.dark
    ⟨true, true, false, false,
      fun k => if k = THEME_STORAGE_KEY then some "light" else none,
      ⟨fun _ => false, fun c => c = "container"⟩⟩
  refine ⟨?_, ?_, ?_⟩
  · rw [h.1]
    simp [THEME_STORAGE_KEY]
  · rw [(h.2.2.2.2.2 rfl).2.1]
    decide
  · rw [((h.2.2.2.2.2 rfl).2.2 "container" (by decide)).2]
    decide

/-- C3: `getStoredTheme` returns a decoded mode exactly when a window exists
and the value stored under the fixed key is exactly the encoding of that
mode (`"light"` or `"dark"`, case-sensitive); in every other situation it
returns `none`, and it is a total function (it never raises to the caller). -/
theorem getStoredTheme_characterization (w : World) (m : ThemeMode) :
    getStoredTheme w = some m ↔
      w.windowDefined = true ∧ w.storage THEME_STORAGE_KEY = some (encodeTheme m) := by
  unfold getStoredTheme
  by_cases hw : w.windowDefined = false
  · simp [hw]
  · simp only [Bool.not_eq_false] at hw
    cases hv : w.storage THEME_STORAGE_KEY with
    | none => cases m <;> simp [hw, hv, encodeTheme]
    | some s =>
      cases m <;> by_cases h1 : s = "light" <;> by_cases h2 : s = "dark" <;>
        simp_all [encodeTheme]

/-- C2 counterexample: with a window present and a storage write that throws
(quota/security exception), `setTheme` — whose `setItem` call is not wrapped
in try/catch — raises the exception to its caller, so not every operation
recovers a persistence failure locally. -/
theorem setTheme_surfaces_storage_error :
    (setTheme ThemeMode.dark
        ⟨true, true, false, true, fun _ => none,
          ⟨fun _ => false, fun _ => false⟩⟩).2 = true := by
  decide

/-- C2 (amended): `getStoredTheme`, `detectPreferredTheme`, `applyTheme` and
`initTheme` are total and never surface an error (`initTheme` swallows its
internal write failure), but `setTheme` propagates a persistence write
failure to its caller: it throws exactly when a window environment exists
and the storage write throws. -/
theorem setTheme_throws_iff (m : ThemeMode) (w : World) :
    (setTheme m w).2 = (w.windowDefined && w.storageWriteThrows) := by
  unfold setTheme windowLocalStorageSetItem
  by_cases hw : w.windowDefined = false
  · simp [hw]
  · simp only [Bool.not_eq_false] at hw
    by_cases ht : w.storageWriteThrows <;> simp [hw, ht]

/-- C6: when no window environment exists, `setTheme` is a no-op (and does
not throw); when one exists, the visual state is that of `applyTheme`
regardless of the write outcome (the apply happens first — even a throwing
write leaves the theme applied), and a successful write stores the mode's
encoding under the fixed key, overwriting any prior value and touching no
other key. -/
theorem setTheme_order_and_effect (m : ThemeMode) (w : World) :
    (w.windowDefined = false → setTheme m w = (w, false)) ∧
    (w.windowDefined = true →
      ((setTheme m w).1).dom = (applyTheme m w).dom ∧
      (w.storageWriteThrows = true → (setTheme m w).1 = applyTheme m w) ∧
      (w.storageWriteThrows = false →
        ((setTheme m w).1).storage THEME_STORAGE_KEY = some (encodeTheme m) ∧
        ∀ k, k ≠ THEME_STORAGE_KEY → ((setTheme m w).1).storage k = w.storage k)) := by
  constructor
  · intro hw
    simp [setTheme, hw]
  · intro hw
    refine ⟨?_, ?_, ?_⟩
    · unfold setTheme windowLocalStorageSetItem
      by_cases ht : w.storageWriteThrows <;> simp [hw, ht]
    · intro ht
      simp [setTheme, windowLocalStorageSetItem, hw, ht]
    · intro ht
      unfold setTheme windowLocalStorageSetItem
      simp [hw, ht]
      intro k hk hk2
      exact absurd hk2 hk

/-- C6 witness: concrete run with a working environment; the store ends up
holding `"dark"` and an unrelated key is untouched. -/
theorem setTheme_order_and_effect_witness :
    ((setTheme ThemeMode.dark
        ⟨true, true, false, false,
          fun k => if k = "other" then some "x" else none,
          ⟨fun _ => false, fun _ => false⟩⟩).1).storage THEME_STORAGE_KEY
        = some (encodeTheme ThemeMode.dark) ∧
    ((setTheme ThemeMode.dark
        ⟨true, true, false, false,
          fun k => if k = "other" then some "x" else none,
          ⟨fun _ => false, fun _ => false⟩⟩).1).storage "other" = some "x" := by
  have h := (setTheme_order_and_effect ThemeMode.dark
      ⟨true, true, false, false,
        fun k => if k = "other" then some "x" else none,
        ⟨fun _ => false, fun _ => false⟩⟩).2 rfl
  refine ⟨(h.2.2 rfl).1, ?_⟩
  rw [(h.2.2 rfl).2 "other" (by decide)]
  decide

/-- C5: whenever a valid stored preference `m` exists, `initTheme` returns
`m`, leaves the whole storage unchanged (no write occurs), and the result
does not depend on the system dark-scheme signal. -/
theorem initTheme_stored_priority (w : World) (m : ThemeMode)
    (h : getStoredTheme w = some m) :
    (initTheme w).1 = m ∧
    (initTheme w).2.storage = w.storage ∧
    ∀ b : Bool, (initTheme { w with prefersDark := b }).1 = m := by
  refine ⟨?_, ?_, ?_⟩
  · rw [initTheme_fst, h]
    rfl
  · unfold initTheme
    simp [h]
  · intro b
    rw [initTheme_fst, getStoredTheme_prefers, h]
    rfl

/-- C5 witness: store holding `"dark"`, system signal light — `initTheme`
returns dark and the store is untouched. -/
theorem initTheme_stored_priority_witness :
    (initTheme
        ⟨true, true, false, false,
          fun k => if k = THEME_STORAGE_KEY then some "dark" else none,
          ⟨fun _ => false, fun _ => false⟩⟩).1 = ThemeMode.dark ∧
    (initTheme
        ⟨true, true, false, false,
          fun k => if k = THEME_STORAGE_KEY then some "dark" else none,
          ⟨fun _ => false, fun _ => false⟩⟩).2.storage =
      fun k => if k = THEME_STORAGE_KEY then some "dark" else none := by
  have h := initTheme_stored_priority
    ⟨true, true, false, false,
      fun k => if k = THEME_STORAGE_KEY then some "dark" else none,
      ⟨fun _ => false, fun _ => false⟩⟩ ThemeMode.dark (by decide)
  exact ⟨h.1, h.2.1⟩

/-- C1: `initTheme` always returns a concrete mode (its return type is
`ThemeMode`, never an option), the applied state agrees with the returned
mode whenever a document exists, and the outcome — returned mode and applied
state alike — is independent of whether the persistence write throws: the
failure is swallowed. -/
theorem initTheme_total_consistent (w : World) :
    (w.documentDefined = true →
      (initTheme w).2.dom.documentElement "dark" = decide ((initTheme w).1 = ThemeMode.dark) ∧
      (initTheme w).2.dom.body "dark" = decide ((initTheme w).1 = ThemeMode.dark)) ∧
    ∀ b : Bool,
      (initTheme { w with storageWriteThrows := b }).1 = (initTheme w).1 ∧
      (initTheme { w with storageWriteThrows := b }).2.dom = (initTheme w).2.dom := by
  constructor
  · intro hd
    rw [initTheme_dom, initTheme_fst, applyTheme_dom_of_document _ w hd]
    exact ⟨by simp, by simp⟩
  · intro b
    constructor
    · rw [initTheme_fst, initTheme_fst, getStoredTheme_throws, detectPreferredTheme_throws]
    · rw [initTheme_dom, initTheme_dom, getStoredTheme_throws, detectPreferredTheme_throws]
      by_cases hd : w.documentDefined = false <;> simp [applyTheme, hd]

/-- C1 witness: document present, empty store, system prefers dark; the
marker matches the returned mode and a throwing write changes nothing. -/
theorem initTheme_total_consistent_witness :
    (initTheme ⟨true, true, true, false, fun _ => none,
        ⟨fun _ => false, fun _ => false⟩⟩).2.dom.documentElement "dark"
      = decide ((initTheme ⟨true, true, true, false, fun _ => none,
        ⟨fun _ => false, fun _ => false⟩⟩).1 = ThemeMode.dark) ∧
    (initTheme { (⟨true, true, true, false, fun _ => none,
        ⟨fun _ => false, fun _ => false⟩⟩ : World) with storageWriteThrows := true }).1
      = (initTheme ⟨true, true, true, false, fun _ => none,
        ⟨fun _ => false, fun _ => false⟩⟩).1 :=
  ⟨((initTheme_total_consistent ⟨true, true, true, false, fun _ => none,
      ⟨fun _ => false, fun _ => false⟩⟩).1 rfl).1,
   ((initTheme_total_consistent ⟨true, true, true, false, fun _ => none,
      ⟨fun _ => false, fun _ => false⟩⟩).2 true).1⟩

theorem getStoredTheme_none_of_invalid (w : World)
    (h : ∀ m : ThemeMode, w.storage THEME_STORAGE_KEY ≠ some (encodeTheme m)) :
    getStoredTheme w = none := by
  simp only [getStoredTheme]
  split_ifs with h1 h2 h3
  · rfl
  · exact absurd h2 (h ThemeMode.light)
  · exact absurd h3 (h ThemeMode.dark)
  · rfl

/-- C4: when the value stored under the fixed key is absent or invalid and a
working environment exists (window and document present, write succeeding),
`initTheme` returns the system preference, writes its encoding to the store
(overwriting the invalid value, touching no other key), and applies the
corresponding marker. -/
theorem initTheme_invalid_store (w : World)
    (hstore : ∀ m : ThemeMode, w.storage THEME_STORAGE_KEY ≠ some (encodeTheme m))
    (hw : w.windowDefined = true) (hd : w.documentDefined = true)
    (ht : w.storageWriteThrows = false) :
    (initTheme w).1 = detectPreferredTheme w ∧
    (initTheme w).2.storage THEME_STORAGE_KEY
        = some (encodeTheme (detectPreferredTheme w)) ∧
    (∀ k, k ≠ THEME_STORAGE_KEY → (initTheme w).2.storage k = w.storage k) ∧
    (initTheme w).2.dom.documentElement "dark"
        = decide (detectPreferredTheme w = ThemeMode.dark) ∧
    (initTheme w).2.dom.body "dark" = decide (detectPreferredTheme w = ThemeMode.dark) := by
  have hnone := getStoredTheme_none_of_invalid w hstore
  have hstor : (initTheme w).2.storage =
      fun k => if k = THEME_STORAGE_KEY
        then some (encodeTheme (detectPreferredTheme w)) else w.storage k := by
    unfold initTheme
    simp only [hnone, Option.getD_none, if_pos trivial]
    rw [trySetItemIgnore_storage_ok]
    · simp
    · simp [hw]
    · simp [ht]
  refine ⟨?_, ?_, ?_, ?_, ?_⟩
  · rw [initTheme_fst, hnone]
    rfl
  · rw [hstor]
    simp
  · intro k hk
    rw [hstor]
    simp [hk]
  · rw [initTheme_dom, hnone, Option.getD_none, applyTheme_dom_of_document _ w hd]
    simp
  · rw [initTheme_dom, hnone, Option.getD_none, applyTheme_dom_of_document _ w hd]
    simp

/-- C4 witness: store holding the invalid value `"purple"`, system prefers
dark — `initTheme` returns dark, overwrites the store with `"dark"`, and
sets the marker. -/
theorem initTheme_invalid_store_witness :
    (initTheme ⟨true, true, true, false,
        (fun k => if k = THEME_STORAGE_KEY then some "purple" else none),
        ⟨fun _ => false, fun _ => false⟩⟩).1 = ThemeMode.dark ∧
    (initTheme ⟨true, true, true, false,
        (fun k => if k = THEME_STORAGE_KEY then some "purple" else none),
        ⟨fun _ => false, fun _ => false⟩⟩).2.storage THEME_STORAGE_KEY = some "dark" ∧
    (initTheme ⟨true, true, true, false,
        (fun k => if k = THEME_STORAGE_KEY then some "purple" else none),
        ⟨fun _ => false, fun _ => false⟩⟩).2.dom.documentElement "dark" = true := by
  have h := initTheme_invalid_store
    ⟨true, true, true, false,
      (fun k => if k = THEME_STORAGE_KEY then some "purple" else none),
      ⟨fun _ => false, fun _ => false⟩⟩
    (by decide) rfl rfl rfl
  exact ⟨h.1, h.2.1, h.2.2.2.1⟩

theorem domAgrees_applyTheme (m : ThemeMode) (w : World) (h : domAgrees w) :
    domAgrees (applyTheme m w) := by
  by_cases hd : w.documentDefined = false
  · rw [applyTheme_of_not_document m w hd]
    exact h
  · simp only [Bool.not_eq_false] at hd
    unfold domAgrees
    rw [applyTheme_dom_of_document m w hd]
    simp

theorem setTheme_fst_dom (m : ThemeMode) (w : World) :
    ((setTheme m w).1).dom = if w.windowDefined then (applyTheme m w).dom else w.dom := by
  unfold setTheme windowLocalStorageSetItem
  by_cases hw : w.windowDefined = false
  · simp [hw]
  · simp only [Bool.not_eq_false] at hw
    by_cases ht : w.storageWriteThrows <;> simp [hw, ht]

theorem domAgrees_runOp (w : World) (op : ThemeOp) (h : domAgrees w) :
    domAgrees (runOp w op) := by
  cases op with
  | applyOp m => exact domAgrees_applyTheme m w h
  | setOp m =>
    show domAgrees (setTheme m w).1
    unfold domAgrees
    rw [setTheme_fst_dom]
    by_cases hw : w.windowDefined = true
    · rw [if_pos hw]
      exact domAgrees_applyTheme m w h
    · rw [if_neg hw]
      exact h
  | initOp =>
    show domAgrees (initTheme w).2
    unfold domAgrees
    rw [initTheme_dom]
    exact domAgrees_applyTheme _ w h

/-- C9: if the two root targets agree on the `"dark"` marker, they still
agree after any sequence of `applyTheme`, `setTheme`, `initTheme` calls —
every operation updates both targets identically, so they never diverge. -/
theorem runOps_preserves_domAgrees (ops : List ThemeOp) (w : World)
    (h : domAgrees w) : domAgrees (runOps w ops) := by
  induction ops generalizing w with
  | nil => exact h
  | cons op rest ih => exact ih (runOp w op) (domAgrees_runOp w op h)

/-- C9 witness: a concrete three-call run from an agreeing state. -/
theorem runOps_preserves_domAgrees_witness :
    domAgrees (runOps
      ⟨true, true, true, false, fun _ => none, ⟨fun _ => false, fun _ => false⟩⟩
      [ThemeOp.initOp, ThemeOp.setOp ThemeMode.light, ThemeOp.applyOp ThemeMode.dark]) :=
  runOps_preserves_domAgrees
    [ThemeOp.initOp, ThemeOp.setOp ThemeMode.light, ThemeOp.applyOp ThemeMode.dark]
    ⟨true, true, true, false, fun _ => none, ⟨fun _ => false, fun _ => false⟩⟩
    (by rfl)

/-- C10: `formatVectorLimit` renders `"<current> / Unlimited"` whenever the
limit is `null`, zero (zero is falsy in the guard) or negative, and
`"<current> / <limit>"` for every strictly positive limit. -/
theorem formatVectorLimit_unlimited_iff (fmt : Int → String) (current : Int)
    (limit : Option Int) :
    ((limit = none ∨ limit = some 0 ∨ (∃ l : Int, limit = some l ∧ l < 0)) →
      formatVectorLimit fmt current limit = fmt current ++ " / Unlimited") ∧
    (∀ l : Int, limit = some l → 0 < l →
      formatVectorLimit fmt current limit = fmt current ++ " / " ++ fmt l) := by
  constructor
  · rintro (rfl | rfl | ⟨l, rfl, hl⟩)
    · rfl
    · rfl
    · have hcond : (l == 0 || decide (l < 0)) = true := by
        simp [hl]
      simp only [formatVectorLimit]
      rw [hcond]
      simp
  · intro l hlim hl
    subst hlim
    have hcond : (l == 0 || decide (l < 0)) = false := by
      simp only [Bool.or_eq_false_iff, beq_eq_false_iff_ne, ne_eq, decide_eq_false_iff_not,
        not_lt]
      omega
    simp only [formatVectorLimit]
    rw [hcond]
    simp

/-- C10 witness: a zero limit renders as Unlimited and a positive limit is
printed. -/
theorem formatVectorLimit_unlimited_iff_witness :
    formatVectorLimit (fun n => toString n) 5 (some 0)
        = (fun n : Int => toString n) 5 ++ " / Unlimited" ∧
    formatVectorLimit (fun n => toString n) 5 (some 3)
        = (fun n : Int => toString n) 5 ++ " / " ++ (fun n : Int => toString n) 3 :=
  ⟨(formatVectorLimit_unlimited_iff (fun n => toString n) 5 (some 0)).1
      (Or.inr (Or.inl rfl)),
   (formatVectorLimit_unlimited_iff (fun n => toString n) 5 (some 3)).2 3 rfl (by decide)⟩

end ThemeLib
